import Mathlib

/-!
Shallow embedding of the api_demo REST service core: the request-authorization
and validation pipeline (auth middleware, rate limiter, pagination validator,
auth service, projects service, error handler), translated from the TypeScript
source, together with theorems settling the specification's claims.

Stores are modelled as lists of records; `prisma.*.findUnique` becomes
`List.find?`, updates and deletes become pointwise list rewrites. Fallible
service functions return `Except AppError _`, mirroring `throw new AppError`.
-/

namespace ApiDemo

/-- Role enumeration of the `role` column: `'user' | 'admin'`. -/
inductive Role where
  | user
  | admin
  deriving DecidableEq, Repr

/-- Project status enumeration: `'todo' | 'doing' | 'done'`. -/
inductive Status where
  | todo
  | doing
  | done
  deriving DecidableEq, Repr

/-- The `AppError` class of `src/middleware/errorHandler.ts`: a code, a
message and an HTTP status. -/
structure AppError where
  code : String
  message : String
  status : Nat
  deriving DecidableEq, Repr

/-- Error-code table `Errors` of `src/utils/response.ts`. -/
structure ErrInfo where
  code : String
  status : Nat
  deriving DecidableEq, Repr

namespace Errors

def VALIDATION_ERROR : ErrInfo := ⟨"VALIDATION_ERROR", 400⟩
def UNAUTHORIZED : ErrInfo := ⟨"UNAUTHORIZED", 401⟩
def FORBIDDEN : ErrInfo := ⟨"FORBIDDEN", 403⟩
def NOT_FOUND : ErrInfo := ⟨"NOT_FOUND", 404⟩
def CONFLICT : ErrInfo := ⟨"CONFLICT", 409⟩
def INTERNAL_ERROR : ErrInfo := ⟨"INTERNAL_ERROR", 500⟩

end Errors

/-- User record of the `users` table (`prisma/schema`): id, name, unique
email, password hash, role, timestamps. -/
structure User where
  id : String
  name : String
  email : String
  passwordHash : String
  role : Role
  createdAt : Nat
  updatedAt : Nat
  deriving DecidableEq, Repr

/-- Project record of the `projects` table: id, title, optional description,
status, owner reference, timestamps. -/
structure Project where
  id : String
  title : String
  description : Option String
  status : Status
  ownerId : String
  createdAt : Nat
  updatedAt : Nat
  deriving DecidableEq, Repr

/-- The project table, with `prisma.project.findUnique({where:{id}})`
modelled as a first-match lookup on the id column. -/
abbrev ProjectStore := List Project

/-- `prisma.project.findUnique({ where: { id: projectId } })`. -/
def findProjectById (store : ProjectStore) (projectId : String) : Option Project :=
  List.find? (fun p => p.id = projectId) store

/-- `prisma.project.delete({ where: { id: projectId } })`: every row with the
given id is removed. -/
def deleteProjectRow (store : ProjectStore) (projectId : String) : ProjectStore :=
  List.filter (fun p => p.id ≠ projectId) store

/-- The `UpdateProjectInput` interface of `projects.service.ts`: each field
optional, `none` meaning the field was absent from the request body. -/
structure UpdateProjectInput where
  title : Option String
  description : Option String
  status : Option Status
  deriving DecidableEq, Repr

/-- The update-data merge of `updateProject`: `updateData` holds exactly the
supplied fields and `prisma.project.update` overwrites exactly those columns,
leaving every other column of the row unchanged. -/
def applyUpdateData (p : Project) (input : UpdateProjectInput) : Project :=
  { p with
    title := input.title.getD p.title
    description := match input.description with
      | some d => some d
      | none => p.description
    status := input.status.getD p.status }

/-- `prisma.project.update({ where: { id }, data })`: rewrite the matching
row in place. -/
def updateProjectRow (store : ProjectStore) (projectId : String)
    (input : UpdateProjectInput) : ProjectStore :=
  List.map (fun p => if p.id = projectId then applyUpdateData p input else p) store

/-- `getProjectById(projectId, ownerId)` of `projects.service.ts` lines
75-100: lookup, `NOT_FOUND` when absent, `FORBIDDEN` when the owner differs,
otherwise the project. -/
def getProjectById (store : ProjectStore) (projectId ownerId : String) :
    Except AppError Project :=
  match findProjectById store projectId with
  | none =>
      .error ⟨Errors.NOT_FOUND.code, "Project not found.", Errors.NOT_FOUND.status⟩
  | some project =>
      if project.ownerId ≠ ownerId then
        .error ⟨Errors.FORBIDDEN.code,
          "You do not have permission to access this project.",
          Errors.FORBIDDEN.status⟩
      else
        .ok project

/-- `updateProject(projectId, ownerId, input)` of `projects.service.ts` lines
102-137: lookup, `NOT_FOUND`, `FORBIDDEN`, then the partial update; returns
the updated record together with the new table state. -/
def updateProject (store : ProjectStore) (projectId ownerId : String)
    (input : UpdateProjectInput) : Except AppError (Project × ProjectStore) :=
  match findProjectById store projectId with
  | none =>
      .error ⟨Errors.NOT_FOUND.code, "Project not found.", Errors.NOT_FOUND.status⟩
  | some project =>
      if project.ownerId ≠ ownerId then
        .error ⟨Errors.FORBIDDEN.code,
          "You do not have permission to modify this project.",
          Errors.FORBIDDEN.status⟩
      else
        .ok (applyUpdateData project input, updateProjectRow store projectId input)

/-- `deleteProject(projectId, ownerId)` of `projects.service.ts` lines
139-166: lookup, `NOT_FOUND`, `FORBIDDEN`, then removal. -/
def deleteProject (store : ProjectStore) (projectId ownerId : String) :
    Except AppError ProjectStore :=
  match findProjectById store projectId with
  | none =>
      .error ⟨Errors.NOT_FOUND.code, "Project not found.", Errors.NOT_FOUND.status⟩
  | some project =>
      if project.ownerId ≠ ownerId then
        .error ⟨Errors.FORBIDDEN.code,
          "You do not have permission to delete this project.",
          Errors.FORBIDDEN.status⟩
      else
        .ok (deleteProjectRow store projectId)

/-- `adminDeleteProject(projectId)` of `projects.service.ts` lines 198-214:
existence check only, then removal, with no ownership comparison. -/
def adminDeleteProject (store : ProjectStore) (projectId : String) :
    Except AppError ProjectStore :=
  match findProjectById store projectId with
  | none =>
      .error ⟨Errors.NOT_FOUND.code, "Project not found.", Errors.NOT_FOUND.status⟩
  | some _ =>
      .ok (deleteProjectRow store projectId)

/-! ### Auth service (`src/services/auth.service.ts`) -/

/-- The user table; `findUnique({where:{email}})` and `({where:{id}})` become
first-match lookups on the respective unique columns. -/
abbrev UserStore := List User

/-- `userRepo.findByEmail` / `prisma.user.findUnique({ where: { email } })`
(case-sensitive exact match). -/
def findUserByEmail (store : UserStore) (email : String) : Option User :=
  List.find? (fun u => u.email = email) store

/-- `userRepo.findById` / `prisma.user.findUnique({ where: { id } })`. -/
def findUserById (store : UserStore) (userId : String) : Option User :=
  List.find? (fun u => u.id = userId) store

/-- `RegisterInput` of `auth.service.ts`. -/
structure RegisterInput where
  name : String
  email : String
  password : String
  deriving DecidableEq, Repr

/-- `LoginInput` of `auth.service.ts`. -/
structure LoginInput where
  email : String
  password : String
  deriving DecidableEq, Repr

/-- `UserResponse` of `auth.service.ts`: the sanitized outward projection of
a user, with no password-hash field. -/
structure UserResponse where
  id : String
  name : String
  email : String
  role : Role
  createdAt : Nat
  updatedAt : Nat
  deriving DecidableEq, Repr

/-- A serialized JSON field value, enough to model the object literals the
service returns outward. -/
inductive FieldVal where
  | str (s : String)
  | nat (n : Nat)
  | ofRole (r : Role)
  deriving DecidableEq, Repr

/-- `sanitizeUser(user)` of `auth.service.ts` lines 62-71. -/
def sanitizeUser (user : User) : UserResponse :=
  { id := user.id
    name := user.name
    email := user.email
    role := user.role
    createdAt := user.createdAt
    updatedAt := user.updatedAt }

/-- The serialized form of the object literal `sanitizeUser` builds: exactly
the six keys written in the source, in order. -/
def userResponseFields (u : UserResponse) : List (String × FieldVal) :=
  [("id", .str u.id), ("name", .str u.name), ("email", .str u.email),
   ("role", .ofRole u.role), ("createdAt", .nat u.createdAt),
   ("updatedAt", .nat u.updatedAt)]

/-- `JwtPayload` of the auth middleware: `{ userId, role }`, also the claim
set signed at token issuance (`tokenSigner.sign({ userId, role })`). -/
structure JwtPayload where
  userId : String
  role : Role
  deriving DecidableEq, Repr

/-- `AuthResponse` of `auth.service.ts`: sanitized user plus signed token. -/
structure AuthResponse where
  user : UserResponse
  token : String
  deriving DecidableEq, Repr

/-- The row `userRepo.create` inserts during registration: the input's name
and email, the hashed password, role `'user'`, and the store-generated id
and timestamps. -/
def registeredUser (hash : String → String) (newId : String) (ts : Nat)
    (input : RegisterInput) : User :=
  { id := newId
    name := input.name
    email := input.email
    passwordHash := hash input.password
    role := Role.user
    createdAt := ts
    updatedAt := ts }

/-- `register(input)` of `auth.service.ts` lines 84-110: email pre-check
(`CONFLICT` when taken), hash, insert, sign. The hasher and token signer are
the injected `passwordHasher` / `tokenSigner` dependencies; `newId` and `ts`
stand for the store-generated id and timestamps. Returns the response and
the new table state. -/
def register (hash : String → String) (sign : JwtPayload → String)
    (store : UserStore) (newId : String) (ts : Nat) (input : RegisterInput) :
    Except AppError (AuthResponse × UserStore) :=
  match findUserByEmail store input.email with
  | some _ =>
      .error ⟨Errors.CONFLICT.code, "A user with this email already exists.",
        Errors.CONFLICT.status⟩
  | none =>
      let user := registeredUser hash newId ts input
      .ok (⟨sanitizeUser user, sign ⟨user.id, user.role⟩⟩, store ++ [user])

/-- `login(input)` of `auth.service.ts` lines 112-139: lookup by email, then
hash comparison; either failure throws `UNAUTHORIZED` with the message
`Invalid email or password.`. -/
def login (compare : String → String → Bool) (sign : JwtPayload → String)
    (store : UserStore) (input : LoginInput) : Except AppError AuthResponse :=
  match findUserByEmail store input.email with
  | none =>
      .error ⟨Errors.UNAUTHORIZED.code, "Invalid email or password.",
        Errors.UNAUTHORIZED.status⟩
  | some user =>
      if compare input.password user.passwordHash then
        .ok ⟨sanitizeUser user, sign ⟨user.id, user.role⟩⟩
      else
        .error ⟨Errors.UNAUTHORIZED.code, "Invalid email or password.",
          Errors.UNAUTHORIZED.status⟩

/-- `getCurrentUser(userId)` of `auth.service.ts` lines 141-153. -/
def getCurrentUser (store : UserStore) (userId : String) :
    Except AppError UserResponse :=
  match findUserById store userId with
  | none =>
      .error ⟨Errors.NOT_FOUND.code, "User not found.", Errors.NOT_FOUND.status⟩
  | some user => .ok (sanitizeUser user)

/-! ### Error handler (`src/middleware/errorHandler.ts`) -/

/-- The classes of thrown error the outermost handler distinguishes:
`ZodError`, `AppError`, `PrismaClientKnownRequestError` (with its Prisma code
and optional `meta.target[0]` column name), and anything else. -/
inductive ThrownError where
  | zod (issues : List (String × String))
  | app (e : AppError)
  | prismaKnown (code : String) (target : Option String)
  | other (name message : String)
  deriving DecidableEq, Repr

/-- The error envelope body `sendError` emits: `{code, message, details?}`
plus the HTTP status. -/
structure ErrorBody where
  code : String
  message : String
  status : Nat
  details : Option (List (String × String))
  deriving DecidableEq, Repr

/-- `errorHandler` of `src/middleware/errorHandler.ts` lines 18-82: Zod
failures become `VALIDATION_ERROR` with field details, `AppError` passes
through, Prisma `P2002` (uniqueness violation) maps to `CONFLICT`, `P2025`
(record missing) to `NOT_FOUND`, everything else to `INTERNAL_ERROR`. -/
def errorHandler (err : ThrownError) : ErrorBody :=
  match err with
  | .zod issues =>
      ⟨Errors.VALIDATION_ERROR.code, "Validation failed",
        Errors.VALIDATION_ERROR.status, some issues⟩
  | .app e => ⟨e.code, e.message, e.status, none⟩
  | .prismaKnown code target =>
      if code = "P2002" then
        ⟨Errors.CONFLICT.code,
          "A record with this " ++ target.getD "field" ++ " already exists.",
          Errors.CONFLICT.status, none⟩
      else if code = "P2025" then
        ⟨Errors.NOT_FOUND.code, "Record not found.", Errors.NOT_FOUND.status, none⟩
      else
        ⟨Errors.INTERNAL_ERROR.code, "An unexpected error occurred.",
          Errors.INTERNAL_ERROR.status, none⟩
  | .other _ _ =>
      ⟨Errors.INTERNAL_ERROR.code, "An unexpected error occurred.",
        Errors.INTERNAL_ERROR.status, none⟩

/-! ### Pagination validator (`paginationSchema` in
`src/controllers/projects.controller.ts` lines 21-36) -/

/-- The longest leading run of decimal digits. -/
def digitsPrefix : List Char → List Char
  | [] => []
  | c :: cs => if c.isDigit then c :: digitsPrefix cs else []

/-- Decimal value of a digit run. -/
def digitsToNat (ds : List Char) : Nat :=
  ds.foldl (fun acc c => acc * 10 + (c.toNat - 48)) 0

/-- JavaScript `parseInt(s, 10)`: skip leading whitespace, read an optional
sign and then the longest digit prefix, ignoring any trailing characters;
`none` is `NaN` (no digits found). -/
def parseIntJS (s : String) : Option Int :=
  let cs := s.data.dropWhile (fun c => c.isWhitespace)
  match cs with
  | '-' :: rest =>
      let ds := digitsPrefix rest
      if ds.isEmpty then none else some (-(digitsToNat ds : Int))
  | '+' :: rest =>
      let ds := digitsPrefix rest
      if ds.isEmpty then none else some (digitsToNat ds)
  | _ =>
      let ds := digitsPrefix cs
      if ds.isEmpty then none else some (digitsToNat ds)

/-- JavaScript `val || defaultStr` on an optional string: `undefined` and the
empty string are falsy, every other string is kept. -/
def strOrDefault (val : Option String) (defaultStr : String) : String :=
  match val with
  | none => defaultStr
  | some s => if s = "" then defaultStr else s

/-- The `limit` branch of `paginationSchema`:
`Math.min(Math.max(1, parseInt(val || '10', 10)), 50)`. `Math.min`/`Math.max`
propagate `NaN`, modelled by `Option.map` over the `NaN`-as-`none` parse. -/
def parseLimit (val : Option String) : Option Int :=
  (parseIntJS (strOrDefault val "10")).map (fun num => min (max 1 num) 50)

/-- The `offset` branch of `paginationSchema`:
`Math.max(0, parseInt(val || '0', 10))`, `NaN`-propagating. -/
def parseOffset (val : Option String) : Option Int :=
  (parseIntJS (strOrDefault val "0")).map (fun num => max 0 num)

/-! ### Auth middleware (`authenticate` / `requireAdmin`) -/

/-- JavaScript `s.startsWith(pre)`, on the character sequence. -/
def strStartsWith (s pre : String) : Bool :=
  pre.data.isPrefixOf s.data

/-- JavaScript `s.substring(n)`: the characters from index `n` on. -/
def strDropChars (s : String) (n : Nat) : String :=
  ⟨s.data.drop n⟩

/-- Outcome of a gate middleware: either `next()` is called with the decoded
claim attached to the request, or `sendError` terminates the request. -/
inductive AuthOutcome where
  | proceed (payload : JwtPayload)
  | reject (code : String) (message : String) (status : Nat)
  deriving DecidableEq, Repr

/-- `authenticate(req, res, next)` of the auth middleware lines 15-46:
requires an `authorization` header of the form `Bearer <token>`, then
verifies the token (`jwt.verify` is the abstract `verify` parameter, closed
over the signing secret); on success the payload is attached, on any failure
the request is rejected with `UNAUTHORIZED`. -/
def authenticate (verify : String → Option JwtPayload)
    (authHeader : Option String) : AuthOutcome :=
  match authHeader with
  | none =>
      .reject Errors.UNAUTHORIZED.code
        "Authentication required. Please provide a valid Bearer token."
        Errors.UNAUTHORIZED.status
  | some h =>
      if h = "" ∨ ¬ strStartsWith h "Bearer " then
        .reject Errors.UNAUTHORIZED.code
          "Authentication required. Please provide a valid Bearer token."
          Errors.UNAUTHORIZED.status
      else
        match verify (strDropChars h 7) with
        | some payload => .proceed payload
        | none =>
            .reject Errors.UNAUTHORIZED.code "Invalid or expired token."
              Errors.UNAUTHORIZED.status

/-- `requireAdmin(req, res, next)` of the auth middleware lines 48-74: reads
the claim `authenticate` attached (`none` when not authenticated). -/
def requireAdmin (user : Option JwtPayload) : AuthOutcome :=
  match user with
  | none =>
      .reject Errors.UNAUTHORIZED.code "Authentication required."
        Errors.UNAUTHORIZED.status
  | some payload =>
      if payload.role ≠ Role.admin then
        .reject Errors.FORBIDDEN.code "Admin access required."
          Errors.FORBIDDEN.status
      else
        .proceed payload

/-- The admin-route gate as wired in `admin.routes.ts`: `authenticate`
composed before `requireAdmin`. -/
def adminGate (verify : String → Option JwtPayload)
    (authHeader : Option String) : AuthOutcome :=
  match authenticate verify authHeader with
  | .proceed payload => requireAdmin (some payload)
  | .reject c m s => .reject c m s

/-- The gate placed in its request context: the context carries the user
table, but the middleware source imports no repository and can consult only
the header and the verifier, so the table parameter is never read. -/
def adminGateInContext (db : UserStore) (verify : String → Option JwtPayload)
    (authHeader : Option String) : AuthOutcome :=
  adminGate verify authHeader

/-! ### Rate limiter (`rateLimit` middleware) -/

/-- `RateLimitEntry` of the rate-limit middleware: a request count and the
window's reset timestamp (milliseconds). -/
structure RateLimitEntry where
  count : Nat
  resetTime : Int
  deriving DecidableEq, Repr

/-- The in-memory `rateLimitStore` map from client key to entry. -/
abbrev RateLimitStore := String → Option RateLimitEntry

/-- The map before any request has been seen. -/
def emptyRateStore : RateLimitStore := fun _ => none

/-- Decision of the rate-limit middleware for one request: call `next()` or
send the 429 error. -/
inductive RateDecision where
  | allow
  | reject (code : String) (message : String) (status : Nat)
  deriving DecidableEq, Repr

/-- One execution of the handler returned by `rateLimit(windowMs,
maxRequests)` (middleware lines 26-58): fetch or (re)initialise the client's
entry, increment its count, then reject with 429 `RATE_LIMIT_EXCEEDED` when
the count exceeds the maximum. Returns the decision and the updated map. -/
def rateLimitStep (windowMs maxRequests : Nat) (store : RateLimitStore)
    (clientKey : String) (now : Int) : RateDecision × RateLimitStore :=
  let base : RateLimitEntry :=
    match store clientKey with
    | some e => if now > e.resetTime then ⟨0, now + windowMs⟩ else e
    | none => ⟨0, now + windowMs⟩
  let entry : RateLimitEntry := ⟨base.count + 1, base.resetTime⟩
  let newStore : RateLimitStore :=
    fun k => if k = clientKey then some entry else store k
  if entry.count > maxRequests then
    (.reject "RATE_LIMIT_EXCEEDED" "Too many requests. Please try again later." 429,
      newStore)
  else
    (.allow, newStore)

/-- A sequence of requests from one client key at the given times, processed
through the middleware; yields the per-request decisions and the final map. -/
def runRateLimit (windowMs maxRequests : Nat) (clientKey : String) :
    List Int → RateLimitStore → List RateDecision × RateLimitStore
  | [], store => ([], store)
  | t :: ts, store =>
      let step := rateLimitStep windowMs maxRequests store clientKey t
      let rest := runRateLimit windowMs maxRequests clientKey ts step.2
      (step.1 :: rest.1, rest.2)

/-- `authRateLimit = rateLimit(15 * 60 * 1000, 20)`, the limiter mounted on
`/auth/register` and `/auth/login`: 20 requests per 15-minute window. -/
def authRateLimitStep (store : RateLimitStore) (clientKey : String) (now : Int) :
    RateDecision × RateLimitStore :=
  rateLimitStep (15 * 60 * 1000) 20 store clientKey now

/-- The 429 rejection the limiter sends. -/
def rateLimitRejection : RateDecision :=
  .reject "RATE_LIMIT_EXCEEDED" "Too many requests. Please try again later." 429

/-! ### Sample data shared by witnesses -/

/-- A concrete project row used to instantiate theorems. -/
def sampleProject : Project :=
  { id := "p1", title := "Alpha", description := some "demo",
    status := Status.todo, ownerId := "alice", createdAt := 1, updatedAt := 1 }

/-- A concrete user row used to instantiate theorems. -/
def sampleUserA : User :=
  { id := "u1", name := "Alice", email := "a@x.com", passwordHash := "pw#",
    role := Role.user, createdAt := 0, updatedAt := 0 }

/-! ### Claims -/

/-- C1: for GetProject, UpdateProject and DeleteProject, a nonexistent
project id yields `NOT_FOUND` for every requester, and an existing project
whose owner differs from the requester yields `FORBIDDEN`; the lookup is
performed before the ownership comparison, so `FORBIDDEN` arises only for
rows that exist. -/
theorem C1_project_ops_existence_then_ownership
    (store : ProjectStore) (projectId requesterId : String)
    (input : UpdateProjectInput) :
    (findProjectById store projectId = none →
      getProjectById store projectId requesterId =
        .error ⟨"NOT_FOUND", "Project not found.", 404⟩ ∧
      updateProject store projectId requesterId input =
        .error ⟨"NOT_FOUND", "Project not found.", 404⟩ ∧
      deleteProject store projectId requesterId =
        .error ⟨"NOT_FOUND", "Project not found.", 404⟩) ∧
    (∀ p, findProjectById store projectId = some p → p.ownerId ≠ requesterId →
      getProjectById store projectId requesterId =
        .error ⟨"FORBIDDEN", "You do not have permission to access this project.", 403⟩ ∧
      updateProject store projectId requesterId input =
        .error ⟨"FORBIDDEN", "You do not have permission to modify this project.", 403⟩ ∧
      deleteProject store projectId requesterId =
        .error ⟨"FORBIDDEN", "You do not have permission to delete this project.", 403⟩) := by
  constructor
  · intro h
    refine ⟨?_, ?_, ?_⟩ <;>
      simp [getProjectById, updateProject, deleteProject, h,
        Errors.NOT_FOUND]
  · intro p hp hown
    refine ⟨?_, ?_, ?_⟩ <;>
      simp [getProjectById, updateProject, deleteProject, hp, hown,
        Errors.FORBIDDEN]

/-- C1 witness: concrete nonexistent-id and wrong-owner requests. -/
theorem C1_witness :
    getProjectById [sampleProject] "p2" "alice" =
      .error ⟨"NOT_FOUND", "Project not found.", 404⟩ ∧
    getProjectById [sampleProject] "p1" "bob" =
      .error ⟨"FORBIDDEN", "You do not have permission to access this project.", 403⟩ ∧
    deleteProject [sampleProject] "p1" "bob" =
      .error ⟨"FORBIDDEN", "You do not have permission to delete this project.", 403⟩ :=
  ⟨((C1_project_ops_existence_then_ownership [sampleProject] "p2" "alice"
      ⟨none, none, none⟩).1 (by decide)).1,
   (((C1_project_ops_existence_then_ownership [sampleProject] "p1" "bob"
      ⟨none, none, none⟩).2 sampleProject (by decide)) (by decide)).1,
   (((C1_project_ops_existence_then_ownership [sampleProject] "p1" "bob"
      ⟨none, none, none⟩).2 sampleProject (by decide)) (by decide)).2.2⟩

/-- C2: after the existence and ownership checks pass, `updateProject`
returns the merge that overwrites exactly the supplied fields: each of
title, description and status keeps its prior value when omitted, and a
status-only patch changes nothing but the status. -/
theorem C2_update_partial_patch
    (store : ProjectStore) (projectId requesterId : String)
    (p : Project) (input : UpdateProjectInput)
    (hfind : findProjectById store projectId = some p)
    (hown : p.ownerId = requesterId) :
    updateProject store projectId requesterId input =
      .ok (applyUpdateData p input, updateProjectRow store projectId input) ∧
    (input.title = none → (applyUpdateData p input).title = p.title) ∧
    (input.description = none →
      (applyUpdateData p input).description = p.description) ∧
    (input.status = none → (applyUpdateData p input).status = p.status) ∧
    (∀ s : Status, applyUpdateData p ⟨none, none, some s⟩ =
      { p with status := s }) := by
  refine ⟨?_, ?_, ?_, ?_, ?_⟩
  · simp [updateProject, hfind, hown]
  · intro h; simp [applyUpdateData, h]
  · intro h; simp [applyUpdateData, h]
  · intro h; simp [applyUpdateData, h]
  · intro s; simp [applyUpdateData]

/-- C2 witness: a status-only patch on a concrete project leaves title and
description unchanged. -/
theorem C2_witness :
    updateProject [sampleProject] "p1" "alice" ⟨none, none, some Status.doing⟩ =
      .ok (applyUpdateData sampleProject ⟨none, none, some Status.doing⟩,
        updateProjectRow [sampleProject] "p1" ⟨none, none, some Status.doing⟩) ∧
    applyUpdateData sampleProject ⟨none, none, some Status.doing⟩ =
      { sampleProject with status := Status.doing } :=
  ⟨(C2_update_partial_patch [sampleProject] "p1" "alice" sampleProject
      ⟨none, none, some Status.doing⟩ (by decide) (by decide)).1,
   (C2_update_partial_patch [sampleProject] "p1" "alice" sampleProject
      ⟨none, none, some Status.doing⟩ (by decide) (by decide)).2.2.2.2
      Status.doing⟩

/-- C3: a login whose email resolves to no user and a login whose password
comparison fails produce literally the same `UNAUTHORIZED` error value —
same code and same message text. -/
theorem C3_login_uniform_failure (compare : String → String → Bool)
    (sign : JwtPayload → String) (store : UserStore) (input : LoginInput) :
    (findUserByEmail store input.email = none →
      login compare sign store input =
        .error ⟨"UNAUTHORIZED", "Invalid email or password.", 401⟩) ∧
    (∀ u, findUserByEmail store input.email = some u →
      compare input.password u.passwordHash = false →
      login compare sign store input =
        .error ⟨"UNAUTHORIZED", "Invalid email or password.", 401⟩) := by
  constructor
  · intro h
    simp [login, h, Errors.UNAUTHORIZED]
  · intro u hu hc
    simp [login, hu, hc, Errors.UNAUTHORIZED]

/-- C3 witness: nonexistent email and wrong password on a concrete store
yield the same error body. -/
theorem C3_witness :
    login (fun _ _ => false) (fun _ => "tok") [sampleUserA]
        ⟨"b@x.com", "pw"⟩ =
      .error ⟨"UNAUTHORIZED", "Invalid email or password.", 401⟩ ∧
    login (fun _ _ => false) (fun _ => "tok") [sampleUserA]
        ⟨"a@x.com", "wrong"⟩ =
      .error ⟨"UNAUTHORIZED", "Invalid email or password.", 401⟩ :=
  ⟨(C3_login_uniform_failure (fun _ _ => false) (fun _ => "tok") [sampleUserA]
      ⟨"b@x.com", "pw"⟩).1 (by decide),
   (C3_login_uniform_failure (fun _ _ => false) (fun _ => "tok") [sampleUserA]
      ⟨"a@x.com", "wrong"⟩).2 sampleUserA (by decide) (by decide)⟩

/-- C4: registration fails `CONFLICT` whenever the email lookup finds an
existing user; after any successful registration, a second registration with
the same email fails `CONFLICT` whatever the other fields; and a store-level
uniqueness violation (`P2002`) surfacing past the pre-check is mapped by
`errorHandler` to `CONFLICT` with status 409. -/
theorem C4_register_conflict (hash : String → String)
    (sign : JwtPayload → String) (store : UserStore) (newId : String)
    (ts : Nat) (input : RegisterInput) :
    (∀ u, findUserByEmail store input.email = some u →
      register hash sign store newId ts input =
        .error ⟨"CONFLICT", "A user with this email already exists.", 409⟩) ∧
    (∀ resp store2, register hash sign store newId ts input = .ok (resp, store2) →
      ∀ (input2 : RegisterInput) (newId2 : String) (ts2 : Nat),
        input2.email = input.email →
        register hash sign store2 newId2 ts2 input2 =
          .error ⟨"CONFLICT", "A user with this email already exists.", 409⟩) ∧
    (∀ target, errorHandler (.prismaKnown "P2002" target) =
      ⟨"CONFLICT", "A record with this " ++ target.getD "field" ++ " already exists.",
        409, none⟩) := by
  refine ⟨?_, ?_, ?_⟩
  · intro u hu
    simp [register, hu, Errors.CONFLICT]
  · intro resp store2 hok input2 newId2 ts2 hemail
    cases hfind : findUserByEmail store input.email with
    | some u => simp [register, hfind] at hok
    | none =>
        simp [register, hfind] at hok
        have hstore2 : store2 = store ++ [registeredUser hash newId ts input] :=
          hok.2.symm
        subst hstore2
        have hfound : findUserByEmail
            (store ++ [registeredUser hash newId ts input]) input2.email =
            some (registeredUser hash newId ts input) := by
          unfold findUserByEmail at hfind ⊢
          rw [hemail, List.find?_append, hfind]
          simp [registeredUser]
        simp [register, hfound, Errors.CONFLICT]
  · intro target
    rfl

/-- C4 witness: a concrete double registration with differing name and
password, and a concrete `P2002` mapped to `CONFLICT`. -/
theorem C4_witness :
    register (fun s => s ++ "#") (fun _ => "tok") [sampleUserA] "u2" 1
        ⟨"Bob", "a@x.com", "zz"⟩ =
      .error ⟨"CONFLICT", "A user with this email already exists.", 409⟩ ∧
    register (fun s => s ++ "#") (fun _ => "tok") [sampleUserA] "u9" 9
        ⟨"Carol", "a@x.com", "qq"⟩ =
      .error ⟨"CONFLICT", "A user with this email already exists.", 409⟩ ∧
    errorHandler (.prismaKnown "P2002" (some "email")) =
      ⟨"CONFLICT", "A record with this email already exists.", 409, none⟩ :=
  ⟨(C4_register_conflict (fun s => s ++ "#") (fun _ => "tok") [sampleUserA]
      "u2" 1 ⟨"Bob", "a@x.com", "zz"⟩).1 sampleUserA (by decide),
   (C4_register_conflict (fun s => s ++ "#") (fun _ => "tok") []
      "u1" 0 ⟨"Alice", "a@x.com", "pw"⟩).2.1
      ⟨sanitizeUser sampleUserA, "tok"⟩ [sampleUserA] (by rfl)
      ⟨"Carol", "a@x.com", "qq"⟩ "u9" 9 (by rfl),
   (C4_register_conflict (fun s => s ++ "#") (fun _ => "tok") [] "u0" 0
      ⟨"X", "x@x.com", "p"⟩).2.2 (some "email")⟩

/-- C5 counterexample: the non-numeric limit string `"abc"` parses to `NaN`
(`none`), which `Math.max`/`Math.min` propagate, so the parsed limit is not
a value in `[1, 50]`. -/
theorem C5_counterexample :
    parseLimit (some "abc") = none ∧
    ¬ ∃ n : Int, parseLimit (some "abc") = some n ∧ 1 ≤ n ∧ n ≤ 50 := by
  refine ⟨rfl, ?_⟩
  rintro ⟨n, hn, -, -⟩
  rw [show parseLimit (some "abc") = none from rfl] at hn
  exact Option.noConfusion hn

/-- C5 amended: absent and empty fields get the defaults 10 and 0; whenever
`parseInt` yields a number the limit is clamped into `[1, 50]` and the
offset to a minimum of 0, and every numeric result respects those bounds;
but a string `parseInt` cannot parse yields `NaN` (`none`), which passes
through the clamping unchanged. -/
theorem C5_pagination_defaults_and_clamp (limitVal offsetVal : Option String) :
    (limitVal = none → parseLimit limitVal = some 10) ∧
    (limitVal = some "" → parseLimit limitVal = some 10) ∧
    (offsetVal = none → parseOffset offsetVal = some 0) ∧
    (offsetVal = some "" → parseOffset offsetVal = some 0) ∧
    (∀ num, parseIntJS (strOrDefault limitVal "10") = some num →
      parseLimit limitVal = some (min (max 1 num) 50)) ∧
    (∀ n, parseLimit limitVal = some n → 1 ≤ n ∧ n ≤ 50) ∧
    (∀ num, parseIntJS (strOrDefault offsetVal "0") = some num →
      parseOffset offsetVal = some (max 0 num)) ∧
    (∀ n, parseOffset offsetVal = some n → 0 ≤ n) ∧
    (parseIntJS (strOrDefault limitVal "10") = none →
      parseLimit limitVal = none) := by
  refine ⟨?_, ?_, ?_, ?_, ?_, ?_, ?_, ?_, ?_⟩
  · rintro rfl; rfl
  · rintro rfl; rfl
  · rintro rfl; rfl
  · rintro rfl; rfl
  · intro num h; simp [parseLimit, h]
  · intro n h
    simp only [parseLimit, Option.map_eq_some'] at h
    obtain ⟨num, -, rfl⟩ := h
    omega
  · intro num h; simp [parseOffset, h]
  · intro n h
    simp only [parseOffset, Option.map_eq_some'] at h
    obtain ⟨num, -, rfl⟩ := h
    omega
  · intro h; simp [parseLimit, h]

/-- C5 witness: concrete defaults, clamping of an oversized value, and the
`NaN` fallthrough on a non-numeric string. -/
theorem C5_witness :
    parseLimit none = some 10 ∧
    parseOffset none = some 0 ∧
    parseLimit (some "100") = some (min (max 1 (100 : Int)) 50) ∧
    (1 ≤ (50 : Int) ∧ (50 : Int) ≤ 50) ∧
    parseLimit (some "abc") = none :=
  ⟨(C5_pagination_defaults_and_clamp none none).1 rfl,
   (C5_pagination_defaults_and_clamp none none).2.2.1 rfl,
   (C5_pagination_defaults_and_clamp (some "100") none).2.2.2.2.1 100 (by rfl),
   (C5_pagination_defaults_and_clamp (some "100") none).2.2.2.2.2.1 50 (by rfl),
   (C5_pagination_defaults_and_clamp (some "abc") none).2.2.2.2.2.2.2.2 (by rfl)⟩

/-- C6 counterexample: a missing header and a failing token verification
both return `UNAUTHORIZED`, but with different message texts, so the full
failure response does reveal which sub-condition failed. -/
theorem C6_counterexample :
    authenticate (fun _ => none) none ≠
      authenticate (fun _ => none) (some "Bearer x") ∧
    authenticate (fun _ => none) none =
      .reject "UNAUTHORIZED"
        "Authentication required. Please provide a valid Bearer token." 401 ∧
    authenticate (fun _ => none) (some "Bearer x") =
      .reject "UNAUTHORIZED" "Invalid or expired token." 401 := by
  refine ⟨?_, rfl, ?_⟩
  · decide
  · decide

/-- C6 amended: all three failure cases reject with the same code
`UNAUTHORIZED` and status 401, so the failure kind does not distinguish
them; the message text, however, distinguishes an absent-or-malformed
header from a failed token verification; on success the decoded claim is
attached. -/
theorem C6_auth_gate_uniform_code (verify : String → Option JwtPayload)
    (authHeader : Option String) :
    (authHeader = none →
      authenticate verify authHeader = .reject "UNAUTHORIZED"
        "Authentication required. Please provide a valid Bearer token." 401) ∧
    (∀ s, authHeader = some s →
      (s = "" ∨ strStartsWith s "Bearer " = false) →
      authenticate verify authHeader = .reject "UNAUTHORIZED"
        "Authentication required. Please provide a valid Bearer token." 401) ∧
    (∀ s, authHeader = some s → s ≠ "" → strStartsWith s "Bearer " = true →
      verify (strDropChars s 7) = none →
      authenticate verify authHeader = .reject "UNAUTHORIZED"
        "Invalid or expired token." 401) ∧
    (∀ s p, authHeader = some s → s ≠ "" → strStartsWith s "Bearer " = true →
      verify (strDropChars s 7) = some p →
      authenticate verify authHeader = .proceed p) := by
  refine ⟨?_, ?_, ?_, ?_⟩
  · rintro rfl; rfl
  · rintro s rfl (rfl | hbad)
    · rfl
    · simp [authenticate, hbad, Errors.UNAUTHORIZED]
  · rintro s rfl hne hsw hv
    simp [authenticate, hne, hsw, hv, Errors.UNAUTHORIZED]
  · rintro s p rfl hne hsw hv
    simp [authenticate, hne, hsw, hv]

/-- C6 witness: the four branches of the gate on concrete headers. -/
theorem C6_witness :
    authenticate (fun t => if t = "tok" then some ⟨"u1", Role.admin⟩ else none)
        none =
      .reject "UNAUTHORIZED"
        "Authentication required. Please provide a valid Bearer token." 401 ∧
    authenticate (fun t => if t = "tok" then some ⟨"u1", Role.admin⟩ else none)
        (some "Token abc") =
      .reject "UNAUTHORIZED"
        "Authentication required. Please provide a valid Bearer token." 401 ∧
    authenticate (fun t => if t = "tok" then some ⟨"u1", Role.admin⟩ else none)
        (some "Bearer bad") =
      .reject "UNAUTHORIZED" "Invalid or expired token." 401 ∧
    authenticate (fun t => if t = "tok" then some ⟨"u1", Role.admin⟩ else none)
        (some "Bearer tok") = .proceed ⟨"u1", Role.admin⟩ :=
  ⟨(C6_auth_gate_uniform_code
      (fun t => if t = "tok" then some ⟨"u1", Role.admin⟩ else none) none).1 rfl,
   (C6_auth_gate_uniform_code
      (fun t => if t = "tok" then some ⟨"u1", Role.admin⟩ else none)
      (some "Token abc")).2.1 "Token abc" rfl (Or.inr (by decide)),
   (C6_auth_gate_uniform_code
      (fun t => if t = "tok" then some ⟨"u1", Role.admin⟩ else none)
      (some "Bearer bad")).2.2.1 "Bearer bad" rfl (by decide) (by decide)
      (by decide),
   (C6_auth_gate_uniform_code
      (fun t => if t = "tok" then some ⟨"u1", Role.admin⟩ else none)
      (some "Bearer tok")).2.2.2 "Bearer tok" ⟨"u1", Role.admin⟩ rfl
      (by decide) (by decide) (by decide)⟩

/-- C7: `requireAdmin` rejects a missing claim with `UNAUTHORIZED`, a
non-admin claim with `FORBIDDEN`, and lets an admin claim through; and
`adminDeleteProject` checks existence only — a present row is removed
whatever its owner is, with no ownership comparison. -/
theorem C7_admin_role_and_delete (user : Option JwtPayload)
    (store : ProjectStore) (projectId : String) :
    (user = none → requireAdmin user =
      .reject "UNAUTHORIZED" "Authentication required." 401) ∧
    (∀ p, user = some p → p.role ≠ Role.admin →
      requireAdmin user = .reject "FORBIDDEN" "Admin access required." 403) ∧
    (∀ p, user = some p → p.role = Role.admin →
      requireAdmin user = .proceed p) ∧
    (findProjectById store projectId = none →
      adminDeleteProject store projectId =
        .error ⟨"NOT_FOUND", "Project not found.", 404⟩) ∧
    (∀ proj, findProjectById store projectId = some proj →
      adminDeleteProject store projectId =
        .ok (deleteProjectRow store projectId)) := by
  refine ⟨?_, ?_, ?_, ?_, ?_⟩
  · rintro rfl; rfl
  · rintro p rfl hrole
    simp [requireAdmin, hrole, Errors.FORBIDDEN]
  · rintro p rfl hrole
    simp [requireAdmin, hrole]
  · intro h
    simp [adminDeleteProject, h, Errors.NOT_FOUND]
  · intro proj h
    simp [adminDeleteProject, h]

/-- C7 witness: concrete role decisions, and an admin delete of a project
owned by somebody else. -/
theorem C7_witness :
    requireAdmin none = .reject "UNAUTHORIZED" "Authentication required." 401 ∧
    requireAdmin (some ⟨"u1", Role.user⟩) =
      .reject "FORBIDDEN" "Admin access required." 403 ∧
    requireAdmin (some ⟨"u2", Role.admin⟩) = .proceed ⟨"u2", Role.admin⟩ ∧
    adminDeleteProject [sampleProject] "p9" =
      .error ⟨"NOT_FOUND", "Project not found.", 404⟩ ∧
    adminDeleteProject [sampleProject] "p1" =
      .ok (deleteProjectRow [sampleProject] "p1") :=
  ⟨(C7_admin_role_and_delete none [] "x").1 rfl,
   (C7_admin_role_and_delete (some ⟨"u1", Role.user⟩) [] "x").2.1
      ⟨"u1", Role.user⟩ rfl (by decide),
   (C7_admin_role_and_delete (some ⟨"u2", Role.admin⟩) [] "x").2.2.1
      ⟨"u2", Role.admin⟩ rfl (by decide),
   (C7_admin_role_and_delete none [sampleProject] "p9").2.2.2.1 (by decide),
   (C7_admin_role_and_delete none [sampleProject] "p1").2.2.2.2 sampleProject
      (by decide)⟩

/-- C8: the outward user object of Register, Login and GetCurrentUser is
always `sanitizeUser` of the stored row, whose serialization carries exactly
the six fields id, name, email, role, createdAt, updatedAt and never a
password-hash field; and GetCurrentUser fails `NOT_FOUND` when the subject
id no longer resolves. -/
theorem C8_sanitized_user_outward (hash : String → String)
    (sign : JwtPayload → String) (compare : String → String → Bool)
    (store : UserStore) (newId : String) (ts : Nat)
    (rin : RegisterInput) (lin : LoginInput) (uid : String) :
    (∀ u : UserResponse, (userResponseFields u).map Prod.fst =
      ["id", "name", "email", "role", "createdAt", "updatedAt"] ∧
      "passwordHash" ∉ (userResponseFields u).map Prod.fst) ∧
    (∀ resp store2, register hash sign store newId ts rin = .ok (resp, store2) →
      resp.user = sanitizeUser (registeredUser hash newId ts rin)) ∧
    (∀ resp, login compare sign store lin = .ok resp →
      ∃ u, findUserByEmail store lin.email = some u ∧
        resp.user = sanitizeUser u) ∧
    (∀ ur, getCurrentUser store uid = .ok ur →
      ∃ u, findUserById store uid = some u ∧ ur = sanitizeUser u) ∧
    (findUserById store uid = none →
      getCurrentUser store uid = .error ⟨"NOT_FOUND", "User not found.", 404⟩) := by
  refine ⟨?_, ?_, ?_, ?_, ?_⟩
  · intro u
    exact ⟨rfl, by simp [userResponseFields]⟩
  · intro resp store2 hok
    cases hfind : findUserByEmail store rin.email with
    | some u => simp [register, hfind] at hok
    | none =>
        simp [register, hfind] at hok
        exact hok.1.symm ▸ rfl
  · intro resp hok
    cases hfind : findUserByEmail store lin.email with
    | none => simp [login, hfind] at hok
    | some u =>
        cases hcmp : compare lin.password u.passwordHash with
        | false => simp [login, hfind, hcmp] at hok
        | true =>
            simp [login, hfind, hcmp] at hok
            exact ⟨u, rfl, hok.symm ▸ rfl⟩
  · intro ur hok
    cases hfind : findUserById store uid with
    | none => simp [getCurrentUser, hfind] at hok
    | some u =>
        simp [getCurrentUser, hfind] at hok
        exact ⟨u, rfl, hok.symm⟩
  · intro h
    simp [getCurrentUser, h, Errors.NOT_FOUND]

/-- C8 witness: a concrete registration response, a concrete current-user
lookup, and a dangling subject id. -/
theorem C8_witness :
    ((userResponseFields (sanitizeUser sampleUserA)).map Prod.fst =
      ["id", "name", "email", "role", "createdAt", "updatedAt"] ∧
      "passwordHash" ∉ (userResponseFields (sanitizeUser sampleUserA)).map Prod.fst) ∧
    (∃ u, findUserById [sampleUserA] "u1" = some u ∧
      sanitizeUser sampleUserA = sanitizeUser u) ∧
    getCurrentUser [] "u1" = .error ⟨"NOT_FOUND", "User not found.", 404⟩ :=
  ⟨(C8_sanitized_user_outward (fun s => s) (fun _ => "t") (fun _ _ => true)
      [] "u" 0 ⟨"n", "e", "p"⟩ ⟨"e", "p"⟩ "u1").1 (sanitizeUser sampleUserA),
   (C8_sanitized_user_outward (fun s => s) (fun _ => "t") (fun _ _ => true)
      [sampleUserA] "u" 0 ⟨"n", "e", "p"⟩ ⟨"e", "p"⟩ "u1").2.2.2.1
      (sanitizeUser sampleUserA) (by rfl),
   (C8_sanitized_user_outward (fun s => s) (fun _ => "t") (fun _ _ => true)
      [] "u" 0 ⟨"n", "e", "p"⟩ ⟨"e", "p"⟩ "u1").2.2.2.2 (by rfl)⟩

/-- Requests from a client whose entry is live (all request times at or
before the reset time) increment the count one by one: the i-th of them is
rejected exactly when the incremented count `c + i + 1` exceeds the
maximum. -/
lemma runRateLimit_live_window (w m : Nat) (k : String) (r : Int) :
    ∀ (ts : List Int) (store : RateLimitStore) (c : Nat),
      store k = some ⟨c, r⟩ → (∀ t ∈ ts, t ≤ r) →
      (runRateLimit w m k ts store).1 =
        (List.range ts.length).map
          (fun i => if c + i + 1 > m then rateLimitRejection
            else RateDecision.allow) ∧
      (runRateLimit w m k ts store).2 k = some ⟨c + ts.length, r⟩ := by
  intro ts
  induction ts with
  | nil =>
      intro store c hk hts
      simpa [runRateLimit] using hk
  | cons t ts ih =>
      intro store c hk hts
      have hle : ¬ t > r := not_lt.mpr (hts t (by simp))
      have hstep : rateLimitStep w m store k t =
          ((if c + 1 > m then rateLimitRejection else RateDecision.allow),
           fun j => if j = k then some ⟨c + 1, r⟩ else store j) := by
        by_cases hc : c + 1 > m <;>
          simp [rateLimitStep, hk, hle, hc, rateLimitRejection]
      have hstore : (fun j => if j = k then some (⟨c + 1, r⟩ : RateLimitEntry)
          else store j) k = some ⟨c + 1, r⟩ := by simp
      obtain ⟨ih1, ih2⟩ := ih
        (fun j => if j = k then some ⟨c + 1, r⟩ else store j) (c + 1) hstore
        (fun t' ht' => hts t' (by simp [ht']))
      constructor
      · show (rateLimitStep w m store k t).1 ::
            (runRateLimit w m k ts (rateLimitStep w m store k t).2).1 = _
        rw [hstep]
        simp only [ih1, List.length_cons, List.range_succ_eq_map,
          List.map_cons, List.map_map]
        congr 1
        apply List.map_congr_left
        intro a _
        simp only [Function.comp_apply, Nat.succ_eq_add_one]
        have harith : c + 1 + a + 1 = c + (a + 1) + 1 := by ring
        rw [harith]
      · show (runRateLimit w m k ts (rateLimitStep w m store k t).2).2 k = _
        rw [hstep]
        rw [ih2]
        have harith : c + 1 + ts.length = c + (ts.length + 1) := by ring
        rw [harith]
        simp

/-- C9: the limiter mounted on the auth routes admits exactly the first 20
requests from a client key whose times stay inside the 15-minute window
opened by the first request, rejecting every later one with 429
`RATE_LIMIT_EXCEEDED` (the middleware returns without calling `next()`);
and once a request arrives strictly after the entry's reset time the count
restarts from zero, so that request is admitted with a fresh count of 1. -/
theorem C9_auth_rate_limit_window (clientKey : String) (t0 : Int)
    (rest : List Int) (hwin : ∀ t ∈ rest, t ≤ t0 + 900000) :
    (runRateLimit 900000 20 clientKey (t0 :: rest) emptyRateStore).1 =
      (List.range (rest.length + 1)).map
        (fun i => if i < 20 then RateDecision.allow else rateLimitRejection) ∧
    (∀ (store : RateLimitStore) (c : Nat) (r now : Int),
      store clientKey = some ⟨c, r⟩ → now > r →
      (rateLimitStep 900000 20 store clientKey now).1 = RateDecision.allow ∧
      (rateLimitStep 900000 20 store clientKey now).2 clientKey =
        some ⟨1, now + 900000⟩) := by
  constructor
  · have hstep : rateLimitStep 900000 20 emptyRateStore clientKey t0 =
        (RateDecision.allow,
         fun j => if j = clientKey then some ⟨1, t0 + 900000⟩ else none) := by
      simp [rateLimitStep, emptyRateStore]
    have hstore : (fun j => if j = clientKey then
        some (⟨1, t0 + 900000⟩ : RateLimitEntry) else none) clientKey =
        some ⟨1, t0 + 900000⟩ := by simp
    obtain ⟨h1, -⟩ := runRateLimit_live_window 900000 20 clientKey
      (t0 + 900000) rest
      (fun j => if j = clientKey then some ⟨1, t0 + 900000⟩ else none) 1
      hstore hwin
    show (rateLimitStep 900000 20 emptyRateStore clientKey t0).1 ::
        (runRateLimit 900000 20 clientKey rest
          (rateLimitStep 900000 20 emptyRateStore clientKey t0).2).1 = _
    rw [hstep]
    simp only [h1, List.range_succ_eq_map, List.map_cons, List.map_map]
    congr 1
    apply List.map_congr_left
    intro a _
    simp only [Function.comp_apply, Nat.succ_eq_add_one]
    by_cases hi : a + 1 < 20
    · rw [if_neg (by omega), if_pos hi]
    · rw [if_pos (by omega), if_neg hi]
  · intro store c r now hk hnow
    constructor
    · simp [rateLimitStep, hk, hnow]
    · simp [rateLimitStep, hk, hnow]

/-- C9 witness: 25 requests inside one window from one client — the first
20 allowed, the last 5 rejected — and a concrete post-reset request admitted
with count 1. -/
theorem C9_witness :
    (runRateLimit 900000 20 "ip" ((0 : Int) :: List.replicate 24 (1 : Int))
        emptyRateStore).1 =
      (List.range 25).map
        (fun i => if i < 20 then RateDecision.allow else rateLimitRejection) ∧
    (rateLimitStep 900000 20
        (fun j => if j = "ip" then some ⟨20, 50⟩ else none) "ip" 51).1 =
      RateDecision.allow ∧
    (rateLimitStep 900000 20
        (fun j => if j = "ip" then some ⟨20, 50⟩ else none) "ip" 51).2 "ip" =
      some ⟨1, 51 + 900000⟩ := by
  obtain ⟨h1, h2⟩ := C9_auth_rate_limit_window "ip" 0 (List.replicate 24 1)
    (by intro t ht; simp [List.mem_replicate] at ht; omega)
  refine ⟨by simpa using h1, ?_, ?_⟩
  · exact (h2 (fun j => if j = "ip" then some ⟨20, 50⟩ else none) 20 50 51
      (by simp) (by omega)).1
  · exact (h2 (fun j => if j = "ip" then some ⟨20, 50⟩ else none) 20 50 51
      (by simp) (by omega)).2

/-- C10: the admin gate's decision is independent of the user table — two
requests with the same header and verifier get the same decision whatever
the store holds — and for a token whose verified claim is `p`, the decision
is determined by `p.role` alone (admin proceeds, any other role is
forbidden), even on a store where the subject's row has changed or is
gone. -/
theorem C10_gate_pure_in_token (db1 db2 : UserStore)
    (verify : String → Option JwtPayload) (authHeader : Option String)
    (t : String) (p : JwtPayload) :
    adminGateInContext db1 verify authHeader =
      adminGateInContext db2 verify authHeader ∧
    (verify t = some p → ∀ db : UserStore,
      adminGateInContext db verify (some ("Bearer " ++ t)) =
        (if p.role = Role.admin then AuthOutcome.proceed p
         else .reject "FORBIDDEN" "Admin access required." 403)) := by
  constructor
  · rfl
  · intro hv db
    have hsw : strStartsWith ("Bearer " ++ t) "Bearer " = true := by
      unfold strStartsWith
      rw [String.data_append]
      exact List.isPrefixOf_iff_prefix.mpr (List.prefix_append _ _)
    have hne : ("Bearer " ++ t) ≠ "" := by
      intro h
      have h2 : ("Bearer " ++ t).data = ("" : String).data :=
        congrArg String.data h
      rw [String.data_append] at h2
      have h3 := congrArg List.length h2
      rw [List.length_append] at h3
      have h7 : ("Bearer ").data.length = 7 := rfl
      have h0 : ("" : String).data.length = 0 := rfl
      omega
    have hdrop : strDropChars ("Bearer " ++ t) 7 = t := by
      unfold strDropChars
      rw [String.data_append]
      have h7 : ("Bearer ").data.length = 7 := rfl
      rw [← h7, List.drop_left]
    have hauth : authenticate verify (some ("Bearer " ++ t)) =
        AuthOutcome.proceed p := by
      simp [authenticate, hne, hsw, hdrop, hv]
    unfold adminGateInContext adminGate
    rw [hauth]
    by_cases hr : p.role = Role.admin <;>
      simp [requireAdmin, hr, Errors.FORBIDDEN]

/-- C10 witness: with a concrete verifier, the same bearer token gets the
same decision over an empty store and over a store whose only user is a
non-admin — the admin role inside the claim wins. -/
theorem C10_witness :
    adminGateInContext []
        (fun s => if s = "tok" then some ⟨"u1", Role.admin⟩ else none)
        (some "Bearer tok") =
      adminGateInContext [sampleUserA]
        (fun s => if s = "tok" then some ⟨"u1", Role.admin⟩ else none)
        (some "Bearer tok") ∧
    adminGateInContext [sampleUserA]
        (fun s => if s = "tok" then some ⟨"u1", Role.admin⟩ else none)
        (some "Bearer tok") = .proceed ⟨"u1", Role.admin⟩ := by
  constructor
  · exact (C10_gate_pure_in_token [] [sampleUserA]
      (fun s => if s = "tok" then some ⟨"u1", Role.admin⟩ else none)
      (some "Bearer tok") "tok" ⟨"u1", Role.admin⟩).1
  · have h := (C10_gate_pure_in_token [] [sampleUserA]
      (fun s => if s = "tok" then some ⟨"u1", Role.admin⟩ else none)
      (some "Bearer tok") "tok" ⟨"u1", Role.admin⟩).2 (by rfl) [sampleUserA]
    rw [show ("Bearer " ++ "tok") = "Bearer tok" from rfl] at h
    rw [h]
    rfl

end ApiDemo
